import Mathlib

/-!
Verification of the signal-to-grid layout engine of
src/visbrain/visuals/GridSignalVisual.py (class GridSignalVisual).

The Python code is shallowly embedded: numpy arrays become a shape
(List Nat) plus a C-order (row-major) flat element list (List Rat);
machine floats become exact rationals; the GPU buffer objects become
plain fields of a state record; Python exceptions become an Except
value that, for set_data, carries the state as mutated at raise time
(so partial mutation before an exception is observable, as in Python).
np.random draws are supplied by an explicit stream argument.

Functions imported from visbrain.utils (ndsubplot, color2vb,
PrepareData) are not part of the given sources; they are modelled from
the specification and marked as such in their doc comments.
-/

/-- Shallow embedding of a numpy ndarray: its shape and its C-order
(row-major) flat list of elements. -/
structure NDArray where
  shape : List Nat
  flat : List ℚ
deriving DecidableEq

/-- Dynamic Python values, as far as the scale / space setters and the
constructor asserts inspect them (isinstance checks on tuple, list,
float, int). -/
inductive PyVal where
  | tuple (xs : List ℚ)
  | list (xs : List ℚ)
  | float (x : ℚ)
  | int (n : ℤ)
  | pynone
deriving DecidableEq

/-- Error outcomes of the embedded Python code.  assertFail stands for a
failed assert in __init__, indexError for tuple indexing out of range,
axisError for np.swapaxes with a bad axis, nameError for the
UnboundLocalError on g_size when no ndim branch matched (rank 0 or
rank > 3 input in set_data), valueError for a size-mismatched
np.reshape. -/
inductive VErr where
  | assertFail
  | indexError
  | axisError
  | nameError
  | valueError
deriving DecidableEq

/-- A color argument to set_data: the literal mode random, or a
specification that color2vb resolves to a single RGB triple.
Modelled from the spec: color2vb (visbrain.utils, not in the given
sources) resolves a named/RGBA specification to one uniform color that
is repeated for every channel; we carry the resolved RGB triple. -/
inductive ColorSpec where
  | random
  | uniform (rgb : ℚ × ℚ × ℚ)
deriving DecidableEq

/-- Element lookup in a flat list, 0 out of range (in-range uses are the
only ones the code reaches). -/
def getQ (l : List ℚ) (i : Nat) : ℚ :=
  l.getD i 0

/-- np.swapaxes(data, 0, 1) on a 2-D array of shape (d0, d1). -/
def transpose2 (d0 d1 : Nat) (flat : List ℚ) : List ℚ :=
  (List.range d1).flatMap (fun i => (List.range d0).map (fun j => getQ flat (j * d1 + i)))

/-- np.swapaxes(data, 0, 2) on a 3-D array of shape (d0, d1, d2). -/
def swap02 (d0 d1 d2 : Nat) (flat : List ℚ) : List ℚ :=
  (List.range d2).flatMap (fun i =>
    (List.range d1).flatMap (fun j =>
      (List.range d0).map (fun k => getQ flat ((k * d1 + j) * d2 + i))))

/-- np.swapaxes(data, 1, 2) on a 3-D array of shape (d0, d1, d2). -/
def swap12 (d0 d1 d2 : Nat) (flat : List ℚ) : List ℚ :=
  (List.range d0).flatMap (fun i =>
    (List.range d2).flatMap (fun j =>
      (List.range d1).map (fun k => getQ flat ((i * d1 + k) * d2 + j))))

/-- The (n_rows, n_cols, n_time) branch of set_data: turns 1-D / 2-D /
3-D input into a 3-D array exactly as the Python code does (reshape for
1-D, optional transpose plus np.newaxis for 2-D, optional swapaxes for
3-D).  Any other rank leaves g_size unassigned, which in Python raises
an UnboundLocalError at the following sig_index line, before any self
attribute is written. -/
def reshapeTo3D (d : NDArray) (axis : Int) : Except VErr NDArray :=
  match d.shape with
  | [n1] => .ok ⟨[1, 1, n1], d.flat⟩
  | [d0, d1] =>
    if axis = 0 then .ok ⟨[1, d1, d0], transpose2 d0 d1 d.flat⟩
    else .ok ⟨[1, d0, d1], d.flat⟩
  | [d0, d1, d2] =>
    if axis = 2 then .ok d
    else
      let a : Int := if axis < 0 then axis + 3 else axis
      if a = 0 then .ok ⟨[d2, d1, d0], swap02 d0 d1 d2 d.flat⟩
      else if a = 1 then .ok ⟨[d0, d2, d1], swap12 d0 d1 d2 d.flat⟩
      else if a = 2 then .ok d
      else .error .axisError
  | _ => .error .nameError

/-- Smallest t with c <= t * t, computed by scanning 0..c (kernel
reducible, unlike Nat.sqrt). -/
def ceilSqrt (c : Nat) : Nat :=
  ((List.range (c + 1)).find? (fun t => c ≤ t * t)).getD c

/-- Modelled from the spec: ndsubplot (visbrain.utils, not in the given
sources).  Section 4.1 requires plan(c) = (rows, cols) with
rows * cols >= c, minimizing the imbalance abs (rows - cols) subject to
that constraint, deterministically.  Imbalance 0 is always attainable
by the square (t, t) with t the ceiling square root of c, so the
minimizer is that square (ties on imbalance broken by the smaller
product, giving the least such t). -/
def ndsubplot (c : Nat) : Nat × Nat :=
  (ceilSqrt c, ceilSqrt c)

/-- np.arange(m).reshape(rows, cols): cell (r, c) holds r * cols + c. -/
def sigGrid (R C : Nat) : List (List Nat) :=
  (List.range R).map (fun r => (List.range C).map (fun c => r * C + c))

/-- np.reshape(data, (m, n), order='F') applied to a C-order (R, C, n)
volume: row a of the result is the full time series of volume channel
(a % R, a / R). -/
def fortranRows (flat : List ℚ) (R C n : Nat) : List (List ℚ) :=
  (List.range (R * C)).map (fun a =>
    (List.range n).map (fun b => getQ flat (((a % R) * C + a / R) * n + b)))

/-- Modelled from the spec: PrepareData._prepare_data (visbrain.utils,
not in the given sources) is excluded preprocessing; set_data forces
its demean and detrend off, and in that state it returns the data
unchanged. -/
def prepare_data (_sf : ℚ) (rows : List (List ℚ)) : List (List ℚ) :=
  rows

/-- Mean of a list of rationals (numpy mean along the last axis, per
row). -/
def listMean (l : List ℚ) : ℚ :=
  l.sum / l.length

/-- Maximum absolute value of a list of rationals, 0 for the empty
list (numpy np.abs(x).max along the last axis, per row). -/
def maxAbs (l : List ℚ) : ℚ :=
  (l.map (fun x => |x|)).foldr max 0

/-- The per-row normalization of set_data: data -= data.mean(axis=-1,
keepdims=True); data /= np.abs(data).max(axis=-1, keepdims=True).
Note that in exact arithmetic a division by a zero maximum yields 0
(Lean convention) where numpy produces NaN; both differ from 1. -/
def demeanNorm (l : List ℚ) : List ℚ :=
  let mu := listMean l
  let c := l.map (fun x => x - mu)
  c.map (fun x => x / maxAbs c)

/-- The per-sample index triples (col, row, time) built with np.c_ of
the three repeat/tile columns; block a (the a-th run of n samples) gets
col = a / R and row = a % R. -/
def buildIndex (R C n : Nat) : List (Nat × Nat × Nat) :=
  (List.range (C * R)).flatMap (fun a =>
    (List.range n).map (fun k => (a / R, a % R, k)))

/-- Python tuple indexing self._sh[axis]: negative indices count from
the end; out of range is an IndexError. -/
def pyIndex (l : List Nat) (i : Int) : Option Nat :=
  if 0 ≤ i ∧ i < (l.length : Int) then some (l.getD i.toNat 0)
  else if -(l.length : Int) ≤ i ∧ i < 0 then some (l.getD (i + l.length).toNat 0)
  else none

/-- The isinstance(space, (int, float)) check of __init__. -/
def spaceNumOk (v : PyVal) : Bool :=
  match v with
  | .float _ => true
  | .int _ => true
  | _ => false

/-- The isinstance(scale, (tuple, list)) and len(scale) == 2 check of
__init__. -/
def scaleOk (v : PyVal) : Bool :=
  match v with
  | .tuple xs => xs.length = 2
  | .list xs => xs.length = 2
  | _ => false

/-- The observable state of a GridSignalVisual: the attributes set_data
and the property setters read and write, plus the GPU-side buffers and
shader uniforms (modelled as plain values).  _scale, _uscale and _space
are Options because the Python setters may never assign them (the
attribute then simply does not exist). -/
structure VisualState where
  _sh : List Nat
  _n : Nat
  _axis : Int
  _sf : ℚ
  _color : ColorSpec
  _scale : Option PyVal
  _uscale : Option PyVal
  _space : Option ℚ
  _ori_shape : List Nat
  _opt_shape : List Nat
  _sig_index : List (List Nat)
  _g_size : Nat × Nat
  dbuffer : List (List ℚ)
  ibuffer : List (Nat × Nat × Nat)
  cbuffer : List (ℚ × ℚ × ℚ)
  u_size : Nat × Nat
  u_n : Nat
  u_scale : Option PyVal
  u_space : Option ℚ

/-- The scale property setter: only isinstance(value, tuple) values are
stored (any arity); everything else is silently ignored.  No exception
is ever raised. -/
def scale_set (s : VisualState) (v : PyVal) : VisualState :=
  match v with
  | .tuple xs =>
    { s with _uscale := some (.tuple xs), _scale := some (.tuple xs),
             u_scale := some (.tuple xs) }
  | _ => s

/-- The space property setter: only isinstance(value, float) values are
stored; everything else (including ints) is silently ignored.  No
exception is ever raised. -/
def space_set (s : VisualState) (v : PyVal) : VisualState :=
  match v with
  | .float x => { s with _space := some x, u_space := some x }
  | _ => s

/-- The color branch of set_data: m = prod(self._g_size) single colors,
random ones drawn from the stream rng, uniform ones repeated, then each
repeated n = len(self) times and sent to the color buffer. -/
def applyColor (s : VisualState) (color : Option ColorSpec) (rng : Nat → ℚ × ℚ × ℚ) :
    VisualState :=
  match color with
  | none => s
  | some c =>
    let m := s._g_size.1 * s._g_size.2
    let singcol : List (ℚ × ℚ × ℚ) :=
      match c with
      | .random => (List.range m).map rng
      | .uniform rgb => List.replicate m rgb
    { s with cbuffer := singcol.flatMap (List.replicate s._n) }

/-- The tail of the data branch of set_data once both reshapes have
succeeded: record the optimal shape and the vertically flipped signal
index grid (np.flipud), Fortran-reshape to (m, n), prepare, demean and
normalize per row, rebuild the index triples, and upload data / index
buffers and the grid-size uniform. -/
def buildState (s1 : VisualState) (d3 : NDArray) (R C : Nat) : VisualState :=
  let rows := prepare_data s1._sf (fortranRows d3.flat R C s1._n)
  { s1 with
    _opt_shape := [R, C]
    _sig_index := (sigGrid R C).reverse
    dbuffer := rows.map demeanNorm
    ibuffer := buildIndex R C s1._n
    u_size := (R, C)
    _g_size := (R, C) }

/-- The data branch of set_data.  self._ori_shape is assigned before
the optimal-grid reshape is attempted, so a size-mismatch ValueError
leaves that attribute already overwritten; the error value carries the
state as mutated at raise time. -/
def dataBranch (s : VisualState) (d : NDArray) (axis : Int) :
    Except (VErr × VisualState) VisualState :=
  match reshapeTo3D d axis with
  | .error e => .error (e, s)
  | .ok d3 =>
    let m := (d3.shape.take 2).prod
    let s1 : VisualState := { s with _ori_shape := d3.shape.take 2 }
    let R := (ndsubplot m).1
    let C := (ndsubplot m).2
    if R * C * s._n = d3.flat.length then
      if R * C = m then .ok (buildState s1 d3 R C)
      else .error (.valueError, s1)
    else .error (.valueError, s1)

/-- The axis normalization at the top of set_data: a missing axis falls
back to self._axis, and exactly the value -1 is replaced by
len(self._sh) - 1 (the constructor shape, not the new data shape). -/
def resolveAxis (s : VisualState) (ax : Option Int) : Int :=
  let a := ax.getD s._axis
  if a = -1 then (s._sh.length : Int) - 1 else a

/-- GridSignalVisual.set_data.  data, axis and color are optional as in
Python; rng supplies the np.random.uniform draws for random colors. -/
def set_data (s : VisualState) (data : Option NDArray) (ax : Option Int)
    (color : Option ColorSpec) (rng : Nat → ℚ × ℚ × ℚ) :
    Except (VErr × VisualState) VisualState :=
  let axis := resolveAxis s ax
  match data with
  | none => .ok (applyColor s color rng)
  | some d =>
    match dataBranch s d axis with
    | .error es => .error es
    | .ok s2 => .ok (applyColor s2 color rng)

/-- GridSignalVisual.__len__. -/
def visualLen (s : VisualState) : Nat :=
  s._n

/-- GridSignalVisual.__init__: the asserts, the captured inputs
(_sh, _n from data.shape[axis], _axis, _sf, _color), the scale and
space setters, the placeholder buffers and uniforms, then
set_data(data, axis, color).  _ori_shape, _opt_shape, _sig_index and
_g_size do not exist before set_data assigns them; their initial field
values here are placeholders that set_data always overwrites on the
only path that reaches them. -/
def init (data : NDArray) (axis : Int) (sf : ℚ) (color : ColorSpec)
    (space scale : PyVal) (rng : Nat → ℚ × ℚ × ℚ) : Except VErr VisualState :=
  if ¬ (data.shape.length ≤ 3) then .error .assertFail
  else if ¬ spaceNumOk space then .error .assertFail
  else if ¬ scaleOk scale then .error .assertFail
  else
    match pyIndex data.shape axis with
    | none => .error .indexError
    | some nv =>
      let s0 : VisualState :=
        { _sh := data.shape, _n := nv, _axis := axis, _sf := sf, _color := color,
          _scale := none, _uscale := none, _space := none,
          _ori_shape := [], _opt_shape := [], _sig_index := [], _g_size := (0, 0),
          dbuffer := [List.replicate 3 0], ibuffer := [(0, 0, 0)],
          cbuffer := [(0, 0, 0)],
          u_size := (1, 1), u_n := nv, u_scale := none, u_space := none }
      let s1 := scale_set s0 scale
      let s2 := space_set s1 space
      match set_data s2 (some data) (some axis) (some color) rng with
      | .ok s3 => .ok s3
      | .error (e, _) => .error e

/-- First index holding the given value, scanning from the front: the
position np.where reports first (row-major) for a value that occurs. -/
def npWhereFirst (target : Nat) : List Nat → Option Nat
  | [] => none
  | x :: xs => if x = target then some 0 else (npWhereFirst target xs).map (· + 1)

/-- GridSignalVisual._convert_row_cols: reads the flipped signal index
at (row, col) (numpy indexing, negative wrap-around), reshapes the
flipped grid to self._ori_shape and returns the first position holding
that value; any failure (bad index, mismatched reshape, value not
found, ori shape not rank 2) is swallowed by the bare except and
(row, col) is returned unchanged.  The column bound of the numpy array
is the length of its first row. -/
def _convert_row_cols (s : VisualState) (row col : Int) : Int × Int :=
  let g := s._sig_index
  let R := g.length
  let C := (g.getD 0 []).length
  let flat := g.flatten
  match s._ori_shape with
  | [_orr, oc] =>
    if -(R : Int) ≤ row ∧ row < (R : Int) ∧ -(C : Int) ≤ col ∧ col < (C : Int) then
      let r : Nat := (if 0 ≤ row then row else row + (R : Int)).toNat
      let cc : Nat := (if 0 ≤ col then col else col + (C : Int)).toNat
      let index := (g.getD r []).getD cc 0
      if _orr * oc = flat.length then
        match npWhereFirst index flat with
        | some p => (((p / oc : Nat) : Int), ((p % oc : Nat) : Int))
        | none => (row, col)
      else (row, col)
    else (row, col)
  | _ => (row, col)

/-! Concrete fixtures used by the counterexamples and witnesses. -/

/-- Fallback state used only to destructure Except values in closed
statements (never reachable on the paths the theorems take). -/
def dummyState : VisualState :=
  { _sh := [], _n := 0, _axis := 0, _sf := 0, _color := .random,
    _scale := none, _uscale := none, _space := none,
    _ori_shape := [], _opt_shape := [], _sig_index := [], _g_size := (0, 0),
    dbuffer := [], ibuffer := [], cbuffer := [],
    u_size := (0, 0), u_n := 0, u_scale := none, u_space := none }

/-- Extracts the ok state of an Except, with a fallback. -/
def okOr (d : VisualState) : Except VErr VisualState → VisualState
  | .ok s => s
  | .error _ => d

/-- Extracts the state carried by an error outcome of set_data, with a
fallback. -/
def errStateOf (d : VisualState) : Except (VErr × VisualState) VisualState → VisualState
  | .error (_, t) => t
  | .ok _ => d

/-- A constant random stream (red). -/
def rng0 : Nat → ℚ × ℚ × ℚ := fun _ => (1, 0, 0)

/-- A second constant random stream, differing from rng0. -/
def rng1 : Nat → ℚ × ℚ × ℚ := fun _ => (0, 1, 0)

/-- A 4-channel, 3-sample 2-D dataset (channels x time); every channel
is the ramp 0, 1, 2. -/
def dGrid : NDArray := ⟨[4, 3], [0, 1, 2, 0, 1, 2, 0, 1, 2, 0, 1, 2]⟩

/-- The visual constructed from dGrid with axis -1: a 2 x 2 optimal
grid of 4 channels, 3 samples each. -/
def s0 : VisualState :=
  okOr dummyState (init dGrid (-1) 1 (.uniform (1, 0, 0)) (.float 2) (.tuple [1, 1]) rng0)

/-- A 5-channel, 3-sample 2-D dataset: 5 is not a perfect square, so
the planner grid (3, 3) does not match the channel count. -/
def dFive : NDArray := ⟨[5, 3], [0, 0, 0, 1, 1, 1, 2, 2, 2, 3, 3, 3, 4, 4, 4]⟩

/-- A rank-4 array. -/
def dRank4 : NDArray := ⟨[1, 1, 1, 2], [0, 1]⟩

/-- A single-channel constant dataset (all samples equal). -/
def dConst : NDArray := ⟨[3], [5, 5, 5]⟩

/-- The visual constructed from the constant dataset dConst. -/
def sConst : VisualState :=
  okOr dummyState (init dConst (-1) 1 (.uniform (1, 0, 0)) (.float 2) (.tuple [1, 1]) rng0)

/-- A single-channel two-sample ramp dataset. -/
def dRamp : NDArray := ⟨[2], [0, 2]⟩

/-- The visual constructed from dRamp. -/
def sRamp : VisualState :=
  okOr dummyState (init dRamp (-1) 1 (.uniform (1, 0, 0)) (.float 2) (.tuple [1, 1]) rng0)

/-- Extracts the ok state of a set_data outcome, with a fallback. -/
def okOr2 (d : VisualState) : Except (VErr × VisualState) VisualState → VisualState
  | .ok s => s
  | .error _ => d

/-- True exactly on ok outcomes of set_data. -/
def isOkE (x : Except (VErr × VisualState) VisualState) : Bool :=
  match x with
  | .ok _ => true
  | .error _ => false

/-- The 3-D array reshapeTo3D produces from dFive with time axis 1. -/
def dFive3 : NDArray := ⟨[1, 5, 3], dFive.flat⟩

/-- State after reloading dGrid into s0 (a fresh full data rebuild). -/
def s0b : VisualState := okOr2 dummyState (set_data s0 (some dGrid) none none rng0)

/-- State after reloading dRamp into sRamp (a fresh full data rebuild). -/
def sW : VisualState := okOr2 dummyState (set_data sRamp (some dRamp) none none rng0)

/-- State after a color-only set_data on s0 with stream rng0. -/
def sColorA : VisualState :=
  okOr2 dummyState (set_data s0 none none (some .random) rng0)

/-- State after a color-only set_data on s0 with stream rng1. -/
def sColorB : VisualState :=
  okOr2 dummyState (set_data s0 none none (some .random) rng1)

/-! Helper lemmas. -/

theorem ceilSqrt_le_sq (c : Nat) : c ≤ ceilSqrt c * ceilSqrt c := by
  unfold ceilSqrt
  cases h : (List.range (c + 1)).find? (fun t => c ≤ t * t) with
  | some t =>
    have ht := List.find?_some h
    simp only [decide_eq_true_eq] at ht
    simpa [h] using ht
  | none =>
    exfalso
    have hc := (List.find?_eq_none.mp h) c (List.mem_range.mpr (Nat.lt_succ_self c))
    simp only [decide_eq_true_eq] at hc
    rcases Nat.eq_zero_or_pos c with h0 | h0
    · subst h0; exact hc (Nat.le_refl 0)
    · exact hc (Nat.le_mul_of_pos_left c h0)

theorem ceilSqrt_one : ceilSqrt 1 = 1 := by decide

theorem sum_map_sub_const (l : List ℚ) (mu : ℚ) :
    (l.map (fun x => x - mu)).sum = l.sum - l.length * mu := by
  induction l with
  | nil => simp
  | cons x xs ih => simp [ih]; ring

theorem sum_map_div (l : List ℚ) (M : ℚ) :
    (l.map (fun x => x / M)).sum = l.sum / M := by
  induction l with
  | nil => simp
  | cons x xs ih => simp [ih, add_div]

theorem maxAbs_cons (x : ℚ) (xs : List ℚ) : maxAbs (x :: xs) = max |x| (maxAbs xs) := rfl

theorem maxAbs_nonneg (l : List ℚ) : 0 ≤ maxAbs l := by
  induction l with
  | nil => simp [maxAbs]
  | cons x xs ih => rw [maxAbs_cons]; exact le_trans ih (le_max_right _ _)

theorem maxAbs_div_pos (l : List ℚ) (M : ℚ) (hM : 0 < M) :
    maxAbs (l.map (fun x => x / M)) = maxAbs l / M := by
  induction l with
  | nil => simp [maxAbs]
  | cons x xs ih =>
    rw [List.map_cons, maxAbs_cons, maxAbs_cons, ih, abs_div, abs_of_pos hM,
        max_div_div_right (le_of_lt hM)]

theorem listMean_of_sum_zero (l : List ℚ) (h : l.sum = 0) : listMean l = 0 := by
  unfold listMean
  rw [h, zero_div]

theorem demeanNorm_mean (l : List ℚ) (hl : l ≠ []) : listMean (demeanNorm l) = 0 := by
  have hlen : (l.length : ℚ) ≠ 0 := by
    have : l.length ≠ 0 := fun h => hl (List.length_eq_zero.mp h)
    exact_mod_cast this
  have hc : (l.map (fun x => x - listMean l)).sum = 0 := by
    rw [sum_map_sub_const, listMean]
    field_simp
  apply listMean_of_sum_zero
  show ((l.map (fun x => x - listMean l)).map
      (fun x => x / maxAbs (l.map (fun x => x - listMean l)))).sum = 0
  rw [sum_map_div, hc, zero_div]

theorem demeanNorm_maxAbs (l : List ℚ)
    (hM : maxAbs (l.map (fun x => x - listMean l)) ≠ 0) :
    maxAbs (demeanNorm l) = 1 := by
  have hpos : 0 < maxAbs (l.map (fun x => x - listMean l)) :=
    lt_of_le_of_ne (maxAbs_nonneg _) (Ne.symm hM)
  show maxAbs ((l.map (fun x => x - listMean l)).map
      (fun x => x / maxAbs (l.map (fun x => x - listMean l)))) = 1
  rw [maxAbs_div_pos _ _ hpos, div_self hM]

theorem demeanNorm_zero_of_maxAbs_zero (l : List ℚ)
    (hM : maxAbs (l.map (fun x => x - listMean l)) = 0) :
    ∀ y ∈ demeanNorm l, y = 0 := by
  intro y hy
  have hy2 : y ∈ (l.map (fun x => x - listMean l)).map
      (fun x => x / maxAbs (l.map (fun x => x - listMean l))) := hy
  rcases List.mem_map.mp hy2 with ⟨x, _, hx⟩
  rw [← hx, hM, div_zero]

theorem demeanNorm_ne_nil (l : List ℚ) (h : demeanNorm l ≠ []) : l ≠ [] := by
  intro hl
  subst hl
  exact h rfl

theorem npWhereFirst_append_of_some (t : Nat) (xs ys : List Nat) (i : Nat)
    (h : npWhereFirst t xs = some i) : npWhereFirst t (xs ++ ys) = some i := by
  induction xs generalizing i with
  | nil => simp [npWhereFirst] at h
  | cons x xs ih =>
    by_cases hx : x = t
    · simp only [npWhereFirst, if_pos hx] at h ⊢
      exact h
    · simp only [npWhereFirst, if_neg hx] at h ⊢
      cases h2 : npWhereFirst t xs with
      | none => rw [h2] at h; simp at h
      | some j =>
        rw [h2] at h
        simp only [Option.map_some'] at h
        rw [show List.append xs ys = xs ++ ys from rfl, ih j h2]
        simpa using h

theorem npWhereFirst_append_of_none (t : Nat) (xs ys : List Nat)
    (h : npWhereFirst t xs = none) :
    npWhereFirst t (xs ++ ys) = (npWhereFirst t ys).map (· + xs.length) := by
  induction xs with
  | nil =>
    cases h2 : npWhereFirst t ys <;> simp [npWhereFirst, h2]
  | cons x xs ih =>
    by_cases hx : x = t
    · simp [npWhereFirst, if_pos hx] at h
    · simp only [npWhereFirst, if_neg hx] at h ⊢
      cases h2 : npWhereFirst t xs with
      | some j => rw [h2] at h; simp at h
      | none =>
        rw [show List.append xs ys = xs ++ ys from rfl, ih h2]
        cases h3 : npWhereFirst t ys <;> simp [h3, List.length_cons]
        omega

theorem npWhereFirst_none (t : Nat) (xs : List Nat) (h : ∀ x ∈ xs, x ≠ t) :
    npWhereFirst t xs = none := by
  induction xs with
  | nil => rfl
  | cons x xs ih =>
    simp only [npWhereFirst, if_neg (h x (List.mem_cons_self x xs))]
    rw [ih (fun y hy => h y (List.mem_cons_of_mem x hy))]
    rfl

theorem npWhereFirst_range_aux (base : Nat) :
    ∀ (n s c : Nat), c < n →
      npWhereFirst (base + (s + c)) ((List.range' s n).map (fun j => base + j)) = some c := by
  intro n
  induction n with
  | zero => intro s c hc; omega
  | succ n ih =>
    intro s c hc
    show npWhereFirst (base + (s + c)) ((s :: List.range' (s + 1) n).map (fun j => base + j))
        = some c
    rcases Nat.eq_zero_or_pos c with rfl | hc1
    · simp [npWhereFirst]
    · have hne : ¬ (base + s = base + (s + c)) := by omega
      simp only [List.map_cons, npWhereFirst, if_neg hne]
      have htgt : base + (s + c) = base + ((s + 1) + (c - 1)) := by omega
      rw [htgt, ih (s + 1) (c - 1) (by omega)]
      simp
      omega

theorem npWhereFirst_range_add (base C c : Nat) (hc : c < C) :
    npWhereFirst (base + c) ((List.range C).map (fun j => base + j)) = some c := by
  have h := npWhereFirst_range_aux base C 0 c hc
  rw [List.range_eq_range']
  simpa using h

theorem npWhereFirst_range_none (base C t : Nat) (h : ∀ j, j < C → base + j ≠ t) :
    npWhereFirst t ((List.range C).map (fun j => base + j)) = none := by
  apply npWhereFirst_none
  intro x hx
  rcases List.mem_map.mp hx with ⟨j, hj, rfl⟩
  exact h j (List.mem_range.mp hj)

theorem sigGrid_reverse_flatten_succ (R C : Nat) :
    ((sigGrid (R + 1) C).reverse).flatten =
      ((List.range C).map (fun j => R * C + j)) ++ ((sigGrid R C).reverse).flatten := by
  unfold sigGrid
  rw [List.range_succ, List.map_append, List.reverse_append]
  simp

theorem npWhereFirst_flip (R C r c : Nat) (hr : r < R) (hc : c < C) :
    npWhereFirst ((R - 1 - r) * C + c) ((sigGrid R C).reverse).flatten = some (r * C + c) := by
  induction R generalizing r with
  | zero => omega
  | succ R ih =>
    rw [sigGrid_reverse_flatten_succ]
    rcases Nat.lt_or_ge r R with hrR | hrR
    · rcases Nat.eq_zero_or_pos r with rfl | hr1
      · have htgt : (R + 1 - 1 - 0) * C + c = R * C + c := by simp
        rw [htgt]
        have hhit := npWhereFirst_append_of_some (R * C + c)
          ((List.range C).map (fun j => R * C + j)) ((sigGrid R C).reverse).flatten c
          (npWhereFirst_range_add (R * C) C c hc)
        simpa using hhit
      · have hmul : (R - r) * C ≤ (R - 1) * C := Nat.mul_le_mul_right C (by omega)
        have hsplit : (R - 1) * C + C = R * C := by
          have h1 : R - 1 + 1 = R := by omega
          calc (R - 1) * C + C = (R - 1 + 1) * C := by rw [Nat.succ_mul]
          _ = R * C := by rw [h1]
        have hlt : (R - r) * C + c < R * C := by omega
        have htgt : (R + 1 - 1 - r) * C + c = (R - r) * C + c := by
          have : R + 1 - 1 - r = R - r := by omega
          rw [this]
        rw [htgt]
        rw [npWhereFirst_append_of_none]
        · have hrec := ih (r - 1) (by omega)
          have htgt2 : (R - 1 - (r - 1)) * C + c = (R - r) * C + c := by
            have : R - 1 - (r - 1) = R - r := by omega
            rw [this]
          rw [htgt2] at hrec
          rw [hrec]
          have hlen : ((List.range C).map (fun j => R * C + j)).length = C := by simp
          rw [hlen]
          have hpos : (r - 1) * C + c + C = r * C + c := by
            have h1 : r - 1 + 1 = r := by omega
            have h2 : (r - 1 + 1) * C = (r - 1) * C + C := Nat.succ_mul _ _
            rw [h1] at h2
            omega
          simp [hpos]
        · apply npWhereFirst_range_none
          intro j hj
          omega
    · have hrR' : r = R := by omega
      subst hrR'
      have htgt : (r + 1 - 1 - r) * C + c = c := by simp
      rw [htgt]
      rcases Nat.eq_zero_or_pos r with rfl | hR1
      · have hhit := npWhereFirst_range_add (0 * C) C c hc
        rw [Nat.zero_mul, Nat.zero_add] at hhit
        have hfull : npWhereFirst c (((List.range C).map (fun j => 0 * C + j)) ++
            ((sigGrid 0 C).reverse).flatten) = some c := by
          apply npWhereFirst_append_of_some
          simpa using hhit
        simpa using hfull
      · have hCle : C ≤ r * C := Nat.le_mul_of_pos_left C hR1
        rw [npWhereFirst_append_of_none]
        · have hrec := ih (r - 1) (by omega)
          have htgt2 : (r - 1 - (r - 1)) * C + c = c := by simp
          rw [htgt2] at hrec
          rw [hrec]
          have hlen : ((List.range C).map (fun j => r * C + j)).length = C := by simp
          rw [hlen]
          have hpos : (r - 1) * C + c + C = r * C + c := by
            have h1 : r - 1 + 1 = r := by omega
            have h2 : (r - 1 + 1) * C = (r - 1) * C + C := Nat.succ_mul _ _
            rw [h1] at h2
            omega
          simp [hpos]
        · apply npWhereFirst_range_none
          intro j hj
          omega

theorem sigGrid_length (R C : Nat) : (sigGrid R C).length = R := by
  simp [sigGrid]

theorem sigGrid_reverse_getD (R C r : Nat) (hr : r < R) :
    ((sigGrid R C).reverse).getD r [] =
      (List.range C).map (fun j => (R - 1 - r) * C + j) := by
  have hlen : r < (sigGrid R C).reverse.length := by
    rw [List.length_reverse, sigGrid_length]; exact hr
  rw [List.getD_eq_getElem _ _ hlen, List.getElem_reverse]
  unfold sigGrid
  rw [List.getElem_map]
  congr 1
  rw [List.getElem_range]
  simp [sigGrid_length, List.length_map, List.length_range]

theorem row_getD (C base cc : Nat) (hcc : cc < C) :
    ((List.range C).map (fun j => base + j)).getD cc 0 = base + cc := by
  have hlen : cc < ((List.range C).map (fun j => base + j)).length := by
    simpa using hcc
  rw [List.getD_eq_getElem _ _ hlen, List.getElem_map, List.getElem_range]

theorem sigGrid_reverse_flatten_length (R C : Nat) :
    (((sigGrid R C).reverse).flatten).length = R * C := by
  induction R with
  | zero => simp [sigGrid]
  | succ R ih =>
    rw [sigGrid_reverse_flatten_succ, List.length_append, ih]
    simp [Nat.succ_mul]
    omega

theorem applyColor_geom (s : VisualState) (c : Option ColorSpec) (rng : Nat → ℚ × ℚ × ℚ) :
    (applyColor s c rng).dbuffer = s.dbuffer ∧
    (applyColor s c rng).ibuffer = s.ibuffer ∧
    (applyColor s c rng)._sig_index = s._sig_index ∧
    (applyColor s c rng)._ori_shape = s._ori_shape ∧
    (applyColor s c rng)._opt_shape = s._opt_shape ∧
    (applyColor s c rng)._g_size = s._g_size ∧
    (applyColor s c rng).u_size = s.u_size ∧
    (applyColor s c rng)._n = s._n ∧
    (applyColor s c rng)._sh = s._sh ∧
    (applyColor s c rng).u_n = s.u_n := by
  cases c with
  | none => exact ⟨rfl, rfl, rfl, rfl, rfl, rfl, rfl, rfl, rfl, rfl⟩
  | some cc => exact ⟨rfl, rfl, rfl, rfl, rfl, rfl, rfl, rfl, rfl, rfl⟩

theorem dataBranch_ok_inv (s : VisualState) (d : NDArray) (A : Int) (s2 : VisualState)
    (h : dataBranch s d A = .ok s2) :
    ∃ d3 : NDArray, reshapeTo3D d A = .ok d3 ∧
      (ndsubplot ((d3.shape.take 2).prod)).1 * (ndsubplot ((d3.shape.take 2).prod)).2 * s._n
        = d3.flat.length ∧
      (ndsubplot ((d3.shape.take 2).prod)).1 * (ndsubplot ((d3.shape.take 2).prod)).2
        = (d3.shape.take 2).prod ∧
      s2 = buildState { s with _ori_shape := d3.shape.take 2 } d3
            (ndsubplot ((d3.shape.take 2).prod)).1 (ndsubplot ((d3.shape.take 2).prod)).2 := by
  unfold dataBranch at h
  cases hr : reshapeTo3D d A with
  | error e => rw [hr] at h; simp at h
  | ok d3 =>
    rw [hr] at h
    simp only [] at h
    split at h
    · split at h
      · refine ⟨d3, rfl, by assumption, by assumption, ?_⟩
        injection h with h
        exact h.symm
      · simp at h
    · simp at h

theorem set_data_ok_inv (s : VisualState) (d : NDArray) (ax : Option Int)
    (c : Option ColorSpec) (rng : Nat → ℚ × ℚ × ℚ) (s' : VisualState)
    (h : set_data s (some d) ax c rng = .ok s') :
    ∃ d3 : NDArray, reshapeTo3D d (resolveAxis s ax) = .ok d3 ∧
      (ndsubplot ((d3.shape.take 2).prod)).1 * (ndsubplot ((d3.shape.take 2).prod)).2 * s._n
        = d3.flat.length ∧
      (ndsubplot ((d3.shape.take 2).prod)).1 * (ndsubplot ((d3.shape.take 2).prod)).2
        = (d3.shape.take 2).prod ∧
      s' = applyColor
            (buildState { s with _ori_shape := d3.shape.take 2 } d3
              (ndsubplot ((d3.shape.take 2).prod)).1 (ndsubplot ((d3.shape.take 2).prod)).2)
            c rng := by
  unfold set_data at h
  simp only [] at h
  cases hb : dataBranch s d (resolveAxis s ax) with
  | error es => rw [hb] at h; simp at h
  | ok s2 =>
    rw [hb] at h
    simp only [] at h
    injection h with h
    obtain ⟨d3, hr, h1, h2, hs2⟩ := dataBranch_ok_inv _ _ _ _ hb
    exact ⟨d3, hr, h1, h2, by rw [← h, hs2]⟩

theorem dataBranch_error_inv (s : VisualState) (d : NDArray) (A : Int) (e : VErr)
    (sE : VisualState) (h : dataBranch s d A = .error (e, sE)) :
    sE.dbuffer = s.dbuffer ∧ sE.ibuffer = s.ibuffer ∧ sE.cbuffer = s.cbuffer ∧
    sE.u_size = s.u_size ∧ sE._g_size = s._g_size ∧ sE._sig_index = s._sig_index ∧
    sE._opt_shape = s._opt_shape ∧ sE._n = s._n ∧ sE._sh = s._sh := by
  unfold dataBranch at h
  cases hr : reshapeTo3D d A with
  | error e2 =>
    rw [hr] at h
    simp only [] at h
    injection h with h
    injection h with he hs
    rw [← hs]
    exact ⟨rfl, rfl, rfl, rfl, rfl, rfl, rfl, rfl, rfl⟩
  | ok d3 =>
    rw [hr] at h
    simp only [] at h
    split at h
    · split at h
      · simp at h
      · injection h with h
        injection h with he hs
        rw [← hs]
        exact ⟨rfl, rfl, rfl, rfl, rfl, rfl, rfl, rfl, rfl⟩
    · injection h with h
      injection h with he hs
      rw [← hs]
      exact ⟨rfl, rfl, rfl, rfl, rfl, rfl, rfl, rfl, rfl⟩

theorem set_data_error_inv (s : VisualState) (dopt : Option NDArray) (ax : Option Int)
    (c : Option ColorSpec) (rng : Nat → ℚ × ℚ × ℚ) (e : VErr) (sE : VisualState)
    (h : set_data s dopt ax c rng = .error (e, sE)) :
    sE.dbuffer = s.dbuffer ∧ sE.ibuffer = s.ibuffer ∧ sE.cbuffer = s.cbuffer ∧
    sE.u_size = s.u_size ∧ sE._g_size = s._g_size ∧ sE._sig_index = s._sig_index ∧
    sE._opt_shape = s._opt_shape ∧ sE._n = s._n ∧ sE._sh = s._sh := by
  unfold set_data at h
  cases dopt with
  | none => simp at h
  | some d =>
    simp only [] at h
    cases hb : dataBranch s d (resolveAxis s ax) with
    | error es =>
      rw [hb] at h
      simp only [] at h
      injection h with h
      exact dataBranch_error_inv _ _ _ _ _ (by rw [hb, h])
    | ok s2 =>
      rw [hb] at h
      simp at h

theorem set_data_ok_keeps_n (s : VisualState) (dopt : Option NDArray) (ax : Option Int)
    (c : Option ColorSpec) (rng : Nat → ℚ × ℚ × ℚ) (s' : VisualState)
    (h : set_data s dopt ax c rng = .ok s') :
    s'._n = s._n ∧ s'._sh = s._sh ∧ s'.u_n = s.u_n := by
  cases dopt with
  | none =>
    unfold set_data at h
    simp only [] at h
    injection h with h
    rw [← h]
    obtain ⟨_, _, _, _, _, _, _, hn, hsh, hun⟩ := applyColor_geom s c rng
    exact ⟨hn, hsh, hun⟩
  | some d =>
    obtain ⟨d3, hr, h1, h2, hs'⟩ := set_data_ok_inv _ _ _ _ _ _ h
    rw [hs']
    obtain ⟨_, _, _, _, _, _, _, hn, hsh, hun⟩ :=
      applyColor_geom (buildState { s with _ori_shape := d3.shape.take 2 } d3
        (ndsubplot ((d3.shape.take 2).prod)).1 (ndsubplot ((d3.shape.take 2).prod)).2) c rng
    rw [hn, hsh, hun]
    exact ⟨rfl, rfl, rfl⟩

theorem scale_set_keeps_n (s : VisualState) (v : PyVal) :
    (scale_set s v)._n = s._n ∧ (scale_set s v)._sh = s._sh := by
  cases v <;> exact ⟨rfl, rfl⟩

theorem space_set_keeps_n (s : VisualState) (v : PyVal) :
    (space_set s v)._n = s._n ∧ (space_set s v)._sh = s._sh := by
  cases v <;> exact ⟨rfl, rfl⟩

/-- C3: for every channel count c >= 1, the planner result (rows, cols)
satisfies rows * cols >= c; no valid pair (r, k) with r * k >= c has
strictly smaller imbalance together with a product at most the chosen
one (the chosen imbalance is already 0); the planner is a pure function
of c alone; and c = 1 yields (1, 1). -/
theorem C3_grid_planner (c : Nat) (_hc : 1 ≤ c) :
    c ≤ (ndsubplot c).1 * (ndsubplot c).2 ∧
    (∀ r k : Nat, 1 ≤ r → 1 ≤ k → c ≤ r * k →
      ¬ (Nat.dist r k < Nat.dist (ndsubplot c).1 (ndsubplot c).2 ∧
         r * k ≤ (ndsubplot c).1 * (ndsubplot c).2)) ∧
    ndsubplot 1 = (1, 1) := by
  refine ⟨ceilSqrt_le_sq c, ?_, by decide⟩
  intro r k hr hk hrk hcontra
  rcases hcontra with ⟨hdist, _⟩
  have hz : Nat.dist (ndsubplot c).1 (ndsubplot c).2 = 0 := Nat.dist_self (ceilSqrt c)
  omega

/-- Witness for C3 at the concrete channel count 5 (planner yields the
square (3, 3)). -/
theorem C3_witness :
    5 ≤ (ndsubplot 5).1 * (ndsubplot 5).2 ∧
    (∀ r k : Nat, 1 ≤ r → 1 ≤ k → 5 ≤ r * k →
      ¬ (Nat.dist r k < Nat.dist (ndsubplot 5).1 (ndsubplot 5).2 ∧
         r * k ≤ (ndsubplot 5).1 * (ndsubplot 5).2)) ∧
    ndsubplot 1 = (1, 1) :=
  C3_grid_planner 5 (by decide)

/-- C4 (amended): the setters never raise.  The scale setter accepts
and stores any tuple of any arity (updating the stored value and the
uniform) and silently ignores every non-tuple; the space setter accepts
and stores only floats and silently ignores everything else; in the
ignored cases the whole state, buffers included, is left unchanged. -/
theorem C4_setters_amended :
    (∀ (s : VisualState) (xs : List ℚ),
      scale_set s (.tuple xs) =
        { s with _scale := some (.tuple xs), _uscale := some (.tuple xs),
                 u_scale := some (.tuple xs) }) ∧
    (∀ (s : VisualState) (v : PyVal), (∀ xs, v ≠ .tuple xs) → scale_set s v = s) ∧
    (∀ (s : VisualState) (x : ℚ),
      space_set s (.float x) = { s with _space := some x, u_space := some x }) ∧
    (∀ (s : VisualState) (v : PyVal), (∀ x, v ≠ .float x) → space_set s v = s) := by
  refine ⟨fun s xs => rfl, ?_, fun s x => rfl, ?_⟩
  · intro s v hv
    cases v with
    | tuple xs => exact absurd rfl (hv xs)
    | list xs => rfl
    | float x => rfl
    | int n => rfl
    | pynone => rfl
  · intro s v hv
    cases v with
    | tuple xs => rfl
    | list xs => rfl
    | float x => exact absurd rfl (hv x)
    | int n => rfl
    | pynone => rfl

/-- Counterexample for C4 as stated: a 3-element tuple passed to the
scale setter is not rejected; it is silently accepted and overwrites
the previous 2-tuple, so no TypeConstraintError is raised and the prior
render parameters are not preserved. -/
theorem C4_counterexample :
    (scale_set s0 (.tuple [1, 2, 3]))._scale = some (.tuple [1, 2, 3]) ∧
    (scale_set s0 (.tuple [1, 2, 3]))._scale ≠ s0._scale ∧
    s0._scale = some (.tuple [1, 1]) := by
  exact ⟨rfl, by decide, by decide⟩

/-- Witness for C4: a non-tuple scale value and a non-float space value
are silently ignored, leaving the state unchanged. -/
theorem C4_witness :
    scale_set s0 PyVal.pynone = s0 ∧ space_set s0 (PyVal.int 3) = s0 :=
  ⟨C4_setters_amended.2.1 s0 .pynone (by intro xs h; cases h),
   C4_setters_amended.2.2.2 s0 (.int 3) (by intro x h; cases h)⟩

/-- C7 (amended): set_data is not fully atomic -- a call that fails at
the optimal-grid reshape has already overwritten self._ori_shape (see
the counterexample) -- but every failing call does leave the uploaded
buffers, the recorded permutation grid, the grid-shape uniform and the
grid size untouched, because those are only written after all fallible
steps. -/
theorem C7_atomicity_amended (s : VisualState) (dopt : Option NDArray) (ax : Option Int)
    (c : Option ColorSpec) (rng : Nat → ℚ × ℚ × ℚ) (e : VErr) (sE : VisualState)
    (h : set_data s dopt ax c rng = .error (e, sE)) :
    sE.dbuffer = s.dbuffer ∧ sE.ibuffer = s.ibuffer ∧ sE.cbuffer = s.cbuffer ∧
    sE.u_size = s.u_size ∧ sE._g_size = s._g_size ∧ sE._sig_index = s._sig_index := by
  obtain ⟨h1, h2, h3, h4, h5, h6, _, _, _⟩ := set_data_error_inv _ _ _ _ _ _ _ h
  exact ⟨h1, h2, h3, h4, h5, h6⟩

/-- Counterexample for C7 as stated: loading a 5-channel array into the
2 x 2 visual fails at the grid reshape, yet the failed call has already
overwritten self._ori_shape (from [1, 4] to [1, 5]), and the shared
lookup _convert_row_cols observably changes behavior at cell (1, 0). -/
theorem C7_counterexample :
    (errStateOf dummyState (set_data s0 (some dFive) none none rng0))._ori_shape = [1, 5] ∧
    s0._ori_shape = [1, 4] ∧
    _convert_row_cols (errStateOf dummyState (set_data s0 (some dFive) none none rng0)) 1 0
      = (1, 0) ∧
    _convert_row_cols s0 1 0 = (0, 2) := by
  exact ⟨by decide, by decide, by decide, by decide⟩

/-- Witness for C7: the concrete failing 5-channel load leaves all
buffers, the permutation grid and the grid-shape uniform of s0
unchanged. -/
theorem C7_witness :
    (errStateOf dummyState (set_data s0 (some dFive) none none rng0)).dbuffer = s0.dbuffer ∧
    (errStateOf dummyState (set_data s0 (some dFive) none none rng0)).ibuffer = s0.ibuffer ∧
    (errStateOf dummyState (set_data s0 (some dFive) none none rng0)).cbuffer = s0.cbuffer ∧
    (errStateOf dummyState (set_data s0 (some dFive) none none rng0)).u_size = s0.u_size ∧
    (errStateOf dummyState (set_data s0 (some dFive) none none rng0))._g_size = s0._g_size ∧
    (errStateOf dummyState (set_data s0 (some dFive) none none rng0))._sig_index
      = s0._sig_index :=
  C7_atomicity_amended s0 (some dFive) none none rng0 .valueError
    (errStateOf dummyState (set_data s0 (some dFive) none none rng0)) rfl

/-- C9 (amended): the code performs no zero padding.  Whenever the
channel count of the 3-D-ified input is strictly below rows * cols of
the planned grid, the reshape fails with a size-mismatch error before
any buffer write; only _ori_shape has been overwritten at that point.
set_data succeeds only when rows * cols equals the channel count. -/
theorem C9_no_padding_amended (s : VisualState) (d : NDArray) (ax : Option Int)
    (c : Option ColorSpec) (rng : Nat → ℚ × ℚ × ℚ) (d3 : NDArray)
    (hr : reshapeTo3D d (resolveAxis s ax) = .ok d3)
    (hlt : (d3.shape.take 2).prod <
      (ndsubplot ((d3.shape.take 2).prod)).1 * (ndsubplot ((d3.shape.take 2).prod)).2) :
    set_data s (some d) ax c rng =
      .error (.valueError, { s with _ori_shape := d3.shape.take 2 }) := by
  unfold set_data dataBranch
  simp only []
  rw [hr]
  simp only []
  by_cases h1 : (ndsubplot ((d3.shape.take 2).prod)).1 *
      (ndsubplot ((d3.shape.take 2).prod)).2 * s._n = d3.flat.length
  · rw [if_pos h1, if_neg (by omega)]
  · rw [if_neg h1]

/-- Counterexample for C9 as stated: the 5-channel input dFive is
planned onto a 3 x 3 grid (9 cells > 5 channels) and the reshape then
fails -- no zero-padded volume is ever built and the call is rejected
rather than accepted. -/
theorem C9_counterexample :
    isOkE (set_data s0 (some dFive) none none rng0) = false ∧
    dFive.shape = [5, 3] ∧
    (ndsubplot 5).1 * (ndsubplot 5).2 = 9 := by
  exact ⟨by decide, by decide, by decide⟩

/-- Witness for C9: the concrete 5-channel load fails with the
size-mismatch error, with only _ori_shape rewritten. -/
theorem C9_witness :
    set_data s0 (some dFive) none none rng0 =
      .error (.valueError, { s0 with _ori_shape := dFive3.shape.take 2 }) :=
  C9_no_padding_amended s0 dFive none none rng0 dFive3 rfl (by decide)

/-- C10: the sample count is fixed at construction.  __len__ returns
self._n; set_data never changes _n, _sh or the u_n uniform (on success
or failure); the reshape inside every set_data call is validated
against the constructor-time n (R * C * s._n must equal the element
count of the incoming data); and __init__ captures _n from
data.shape[axis] and _sh from data.shape. -/
theorem C10_fixed_n :
    (∀ s : VisualState, visualLen s = s._n) ∧
    (∀ (s : VisualState) (dopt : Option NDArray) (ax : Option Int) (c : Option ColorSpec)
      (rng : Nat → ℚ × ℚ × ℚ) (s' : VisualState),
        set_data s dopt ax c rng = .ok s' → s'._n = s._n ∧ s'._sh = s._sh ∧ s'.u_n = s.u_n) ∧
    (∀ (s : VisualState) (dopt : Option NDArray) (ax : Option Int) (c : Option ColorSpec)
      (rng : Nat → ℚ × ℚ × ℚ) (e : VErr) (sE : VisualState),
        set_data s dopt ax c rng = .error (e, sE) → sE._n = s._n ∧ sE._sh = s._sh) ∧
    (∀ (s : VisualState) (d : NDArray) (ax : Option Int) (c : Option ColorSpec)
      (rng : Nat → ℚ × ℚ × ℚ) (s' : VisualState),
        set_data s (some d) ax c rng = .ok s' →
        ∃ d3 : NDArray, reshapeTo3D d (resolveAxis s ax) = .ok d3 ∧
          (ndsubplot ((d3.shape.take 2).prod)).1 * (ndsubplot ((d3.shape.take 2).prod)).2 * s._n
            = d3.flat.length) ∧
    (∀ (data : NDArray) (axis : Int) (sf : ℚ) (color : ColorSpec) (space scale : PyVal)
      (rng : Nat → ℚ × ℚ × ℚ) (sv : VisualState),
        init data axis sf color space scale rng = .ok sv →
        pyIndex data.shape axis = some sv._n ∧ sv._sh = data.shape) := by
  refine ⟨fun s => rfl, ?_, ?_, ?_, ?_⟩
  · intro s dopt ax c rng s' h
    exact set_data_ok_keeps_n s dopt ax c rng s' h
  · intro s dopt ax c rng e sE h
    obtain ⟨_, _, _, _, _, _, _, hn, hsh⟩ := set_data_error_inv _ _ _ _ _ _ _ h
    exact ⟨hn, hsh⟩
  · intro s d ax c rng s' h
    obtain ⟨d3, hr, h1, _, _⟩ := set_data_ok_inv _ _ _ _ _ _ h
    exact ⟨d3, hr, h1⟩
  · intro data axis sf color space scale rng sv h
    unfold init at h
    split at h
    · simp at h
    · split at h
      · simp at h
      · split at h
        · simp at h
        · cases hpi : pyIndex data.shape axis with
          | none => rw [hpi] at h; simp at h
          | some nv =>
            rw [hpi] at h
            simp only [] at h
            split at h
            · rename_i s3 heq
              injection h with h
              obtain ⟨hn3, hsh3, _⟩ := set_data_ok_keeps_n _ _ _ _ _ _ heq
              obtain ⟨hn2, hsh2⟩ := space_set_keeps_n _ _
              obtain ⟨hn1, hsh1⟩ := scale_set_keeps_n _ _
              constructor
              · rw [← h, hn3, hn2, hn1]
              · rw [← h, hsh3, hsh2, hsh1]
            · simp at h

/-- Witness for C10: the concrete constructor call on dGrid with axis
-1 captures n = 3 (the last dimension) and the constructor shape. -/
theorem C10_witness :
    pyIndex dGrid.shape (-1) = some s0._n ∧ s0._sh = dGrid.shape :=
  C10_fixed_n.2.2.2.2 dGrid (-1) 1 (.uniform (1, 0, 0)) (.float 2) (.tuple [1, 1]) rng0 s0 rfl

theorem set_data_ok_shape (s : VisualState) (d : NDArray) (ax : Option Int)
    (c : Option ColorSpec) (rng : Nat → ℚ × ℚ × ℚ) (s' : VisualState) (R C : Nat)
    (h : set_data s (some d) ax c rng = .ok s') (hop : s'._opt_shape = [R, C]) :
    s'._sig_index = (sigGrid R C).reverse ∧ R * C = s'._ori_shape.prod := by
  obtain ⟨d3, hr, h1, h2, hs'⟩ := set_data_ok_inv _ _ _ _ _ _ h
  obtain ⟨_, _, hsi, hori, hopt, _⟩ := applyColor_geom
    (buildState { s with _ori_shape := d3.shape.take 2 } d3
      (ndsubplot ((d3.shape.take 2).prod)).1 (ndsubplot ((d3.shape.take 2).prod)).2) c rng
  have hopt2 : s'._opt_shape =
      [(ndsubplot ((d3.shape.take 2).prod)).1, (ndsubplot ((d3.shape.take 2).prod)).2] := by
    rw [hs', hopt]
    rfl
  rw [hop] at hopt2
  obtain ⟨hRx, hCy⟩ : R = (ndsubplot ((d3.shape.take 2).prod)).1 ∧
      C = (ndsubplot ((d3.shape.take 2).prod)).2 := by
    have := hopt2
    simp at this
    exact this
  have hsig : s'._sig_index = (sigGrid R C).reverse := by
    rw [hs', hsi, hRx, hCy]
    rfl
  have hori2 : s'._ori_shape = d3.shape.take 2 := by
    rw [hs', hori]
    rfl
  refine ⟨hsig, ?_⟩
  rw [hori2, hRx, hCy]
  exact h2

/-- C8: for every successful set_data with recorded optimal grid
(R, C), the stored cell-to-channel grid is vertically flipped: grid row
0 holds the channel indices of the last natural-order row, and grid row
R - 1 holds those of natural-order row 0. -/
theorem C8_vertical_flip (s : VisualState) (d : NDArray) (ax : Option Int)
    (c : Option ColorSpec) (rng : Nat → ℚ × ℚ × ℚ) (s' : VisualState) (R C : Nat)
    (h : set_data s (some d) ax c rng = .ok s') (hop : s'._opt_shape = [R, C])
    (hR : 1 ≤ R) :
    s'._sig_index.getD 0 [] = (List.range C).map (fun j => (R - 1) * C + j) ∧
    s'._sig_index.getD (R - 1) [] = List.range C := by
  obtain ⟨hsig, _⟩ := set_data_ok_shape _ _ _ _ _ _ _ _ h hop
  rw [hsig]
  constructor
  · rw [sigGrid_reverse_getD R C 0 (by omega)]
    simp
  · rw [sigGrid_reverse_getD R C (R - 1) (by omega)]
    have hz : R - 1 - (R - 1) = 0 := by omega
    rw [hz]
    simp

/-- Witness for C8 at the concrete reload of dGrid: grid row 0 is
[2, 3] (channels of natural row 1) and grid row 1 is [0, 1]. -/
theorem C8_witness :
    s0b._sig_index.getD 0 [] = (List.range 2).map (fun j => (2 - 1) * 2 + j) ∧
    s0b._sig_index.getD (2 - 1) [] = List.range 2 :=
  C8_vertical_flip s0 dGrid none none rng0 s0b 2 2 rfl rfl (by decide)

theorem flatMap_replicate_inj (n : Nat) (hn : 0 < n) :
    ∀ (as bs : List (ℚ × ℚ × ℚ)),
      as.flatMap (List.replicate n) = bs.flatMap (List.replicate n) → as = bs := by
  intro as
  induction as with
  | nil =>
    intro bs h
    cases bs with
    | nil => rfl
    | cons b bs =>
      exfalso
      rw [List.flatMap_nil, List.flatMap_cons] at h
      have hlen := congrArg List.length h
      simp at hlen
      omega
  | cons a as ih =>
    intro bs h
    cases bs with
    | nil =>
      exfalso
      rw [List.flatMap_nil, List.flatMap_cons] at h
      have hlen := congrArg List.length h
      simp at hlen
      omega
    | cons b bs =>
      rw [List.flatMap_cons, List.flatMap_cons] at h
      obtain ⟨h1, h2⟩ := List.append_inj h (by simp)
      have hab : a = b := by
        have hhd := congrArg (fun l => l.headD (0, 0, 0)) h1
        cases n with
        | zero => omega
        | succ n => simpa using hhd
      rw [hab, ih bs h2]

theorem map_range_getD (m i : Nat) (f : Nat → ℚ × ℚ × ℚ) (hi : i < m)
    (dflt : ℚ × ℚ × ℚ) : ((List.range m).map f).getD i dflt = f i := by
  have hlen : i < ((List.range m).map f).length := by simpa using hi
  rw [List.getD_eq_getElem _ _ hlen, List.getElem_map, List.getElem_range]

/-- C6: a color-only set_data call (data is None) always succeeds,
rebuilds only the color buffer and leaves the position buffer, the
index buffer, the recorded permutation grid, the grid size and the
grid-shape uniform exactly as before; and two color-only calls with
random color whose streams differ at some channel index produce
different color buffers while both leave the position and index
buffers identical. -/
theorem C6_color_only (s : VisualState) (ax1 ax2 : Option Int)
    (rngA rngB : Nat → ℚ × ℚ × ℚ) (s1 s2 : VisualState) (i : Nat)
    (h1 : set_data s none ax1 (some .random) rngA = .ok s1)
    (h2 : set_data s none ax2 (some .random) rngB = .ok s2)
    (hi : i < s._g_size.1 * s._g_size.2) (hne : rngA i ≠ rngB i) (hn : 0 < s._n) :
    s1.dbuffer = s.dbuffer ∧ s1.ibuffer = s.ibuffer ∧ s1._sig_index = s._sig_index ∧
    s1._g_size = s._g_size ∧ s1.u_size = s.u_size ∧ s1._ori_shape = s._ori_shape ∧
    s2.dbuffer = s.dbuffer ∧ s2.ibuffer = s.ibuffer ∧
    s1.cbuffer ≠ s2.cbuffer := by
  have e1 : s1 = applyColor s (some .random) rngA := by
    unfold set_data at h1
    simp only [] at h1
    injection h1 with h1
    exact h1.symm
  have e2 : s2 = applyColor s (some .random) rngB := by
    unfold set_data at h2
    simp only [] at h2
    injection h2 with h2
    exact h2.symm
  subst e1
  subst e2
  refine ⟨rfl, rfl, rfl, rfl, rfl, rfl, rfl, rfl, ?_⟩
  show ((List.range (s._g_size.1 * s._g_size.2)).map rngA).flatMap (List.replicate s._n)
      ≠ ((List.range (s._g_size.1 * s._g_size.2)).map rngB).flatMap (List.replicate s._n)
  intro hceq
  have heq := flatMap_replicate_inj s._n hn _ _ hceq
  have hfi := congrArg (fun l => l.getD i (0, 0, 0)) heq
  simp only [] at hfi
  rw [map_range_getD _ _ _ hi, map_range_getD _ _ _ hi] at hfi
  exact hne hfi

/-- Witness for C6: two concrete color-only calls on s0 with streams
rng0 and rng1 preserve the geometry of s0 and differ in their color
buffers. -/
theorem C6_witness :
    sColorA.dbuffer = s0.dbuffer ∧ sColorA.ibuffer = s0.ibuffer ∧
    sColorA._sig_index = s0._sig_index ∧ sColorA._g_size = s0._g_size ∧
    sColorA.u_size = s0.u_size ∧ sColorA._ori_shape = s0._ori_shape ∧
    sColorB.dbuffer = s0.dbuffer ∧ sColorB.ibuffer = s0.ibuffer ∧
    sColorA.cbuffer ≠ sColorB.cbuffer :=
  C6_color_only s0 none none rng0 rng1 sColorA sColorB 0 rfl rfl
    (by decide) (by decide) (by decide)

theorem reshapeTo3D_rank4 (d : NDArray) (A : Int) (hlen : 3 < d.shape.length) :
    reshapeTo3D d A = .error .nameError := by
  rcases d with ⟨sh, fl⟩
  simp only [] at hlen
  unfold reshapeTo3D
  rcases sh with _ | ⟨a, _ | ⟨b, _ | ⟨e, _ | ⟨f, tl⟩⟩⟩⟩
  · simp at hlen
  · simp at hlen
  · simp at hlen
  · simp at hlen
  · rfl

theorem reshapeTo3D_axis_err (d : NDArray) (A : Int) (d0 d1 d2 : Nat)
    (hsh : d.shape = [d0, d1, d2]) (hA : 3 ≤ A ∨ A ≤ -4) :
    reshapeTo3D d A = .error .axisError := by
  rcases d with ⟨sh, fl⟩
  simp only [] at hsh
  subst hsh
  show (if A = 2 then Except.ok (⟨[d0, d1, d2], fl⟩ : NDArray)
      else
        let a : Int := if A < 0 then A + 3 else A
        if a = 0 then .ok ⟨[d2, d1, d0], swap02 d0 d1 d2 fl⟩
        else if a = 1 then .ok ⟨[d0, d2, d1], swap12 d0 d1 d2 fl⟩
        else if a = 2 then .ok ⟨[d0, d1, d2], fl⟩
        else .error .axisError) = Except.error VErr.axisError
  rw [if_neg (show ¬ (A = 2) by omega)]
  show (if (if A < 0 then A + 3 else A) = 0
        then Except.ok (⟨[d2, d1, d0], swap02 d0 d1 d2 fl⟩ : NDArray)
      else if (if A < 0 then A + 3 else A) = 1 then .ok ⟨[d0, d2, d1], swap12 d0 d1 d2 fl⟩
      else if (if A < 0 then A + 3 else A) = 2 then .ok ⟨[d0, d1, d2], fl⟩
      else .error .axisError) = Except.error VErr.axisError
  rcases hA with hA | hA
  · rw [if_neg (show ¬ (A < 0) by omega)]
    rw [if_neg (show ¬ (A = 0) by omega), if_neg (show ¬ (A = 1) by omega),
        if_neg (show ¬ (A = 2) by omega)]
  · rw [if_pos (show A < 0 by omega)]
    rw [if_neg (show ¬ (A + 3 = 0) by omega), if_neg (show ¬ (A + 3 = 1) by omega),
        if_neg (show ¬ (A + 3 = 2) by omega)]

/-- C5 (amended): an input of rank above 3 always fails before any
state or buffer mutation -- the constructor assert rejects it, and a
direct set_data call errors out with the state completely unchanged.
An out-of-range time axis fails at construction (indexing
data.shape[axis]) and, for 3-D data, inside set_data at the axis swap
(again with the state unchanged); but for 1-D and 2-D data a later
set_data call does NOT reject an out-of-range axis (see the
counterexample) -- it silently treats the last axis as time. -/
theorem C5_shape_errors_amended :
    (∀ (d : NDArray) (axis : Int) (sf : ℚ) (color : ColorSpec) (space scale : PyVal)
      (rng : Nat → ℚ × ℚ × ℚ), 3 < d.shape.length →
        init d axis sf color space scale rng = .error .assertFail) ∧
    (∀ (s : VisualState) (d : NDArray) (ax : Option Int) (c : Option ColorSpec)
      (rng : Nat → ℚ × ℚ × ℚ), 3 < d.shape.length →
        set_data s (some d) ax c rng = .error (.nameError, s)) ∧
    (∀ (d : NDArray) (axis : Int) (sf : ℚ) (color : ColorSpec) (space scale : PyVal)
      (rng : Nat → ℚ × ℚ × ℚ), d.shape.length ≤ 3 → spaceNumOk space = true →
        scaleOk scale = true → pyIndex d.shape axis = none →
        init d axis sf color space scale rng = .error .indexError) ∧
    (∀ (s : VisualState) (d : NDArray) (ax : Option Int) (c : Option ColorSpec)
      (rng : Nat → ℚ × ℚ × ℚ) (d0 d1 d2 : Nat), d.shape = [d0, d1, d2] →
        (3 ≤ resolveAxis s ax ∨ resolveAxis s ax ≤ -4) →
        set_data s (some d) ax c rng = .error (.axisError, s)) := by
  refine ⟨?_, ?_, ?_, ?_⟩
  · intro d axis sf color space scale rng hlen
    unfold init
    rw [if_pos (show ¬ (d.shape.length ≤ 3) by omega)]
  · intro s d ax c rng hlen
    unfold set_data dataBranch
    simp only []
    rw [reshapeTo3D_rank4 d (resolveAxis s ax) hlen]
  · intro d axis sf color space scale rng h3 hsp hsc hpi
    unfold init
    rw [if_neg (by simp [h3]), if_neg (by simp [hsp]), if_neg (by simp [hsc]), hpi]
  · intro s d ax c rng d0 d1 d2 hsh hA
    unfold set_data dataBranch
    simp only []
    rw [reshapeTo3D_axis_err d (resolveAxis s ax) d0 d1 d2 hsh hA]

/-- Counterexample for C5 as stated: a set_data call on 2-D data with
the out-of-range time axis 5 (rank is 2) is not rejected -- it succeeds
and silently treats the last axis as time. -/
theorem C5_counterexample :
    isOkE (set_data s0 (some dGrid) (some 5) none rng0) = true ∧
    dGrid.shape.length = 2 := by
  exact ⟨by decide, by decide⟩

/-- Witness for C5: a direct set_data call with the concrete rank-4
array dRank4 errors out with the state unchanged. -/
theorem C5_witness :
    set_data s0 (some dRank4) none none rng0 = .error (.nameError, s0) :=
  C5_shape_errors_amended.2.1 s0 dRank4 none none rng0 (by decide)

/-- C2 (amended): after every successful set_data data rebuild, every
uploaded channel row that is not constant (it contains two distinct
values) has mean exactly 0 and maximum absolute value exactly 1 -- the
demean and the max-abs division are per-channel reductions.  A constant
channel is demeaned to zero and then divided by a zero maximum (NaN in
floating point, 0 in exact arithmetic), so its max-abs is not 1 (see
the counterexample). -/
theorem C2_normalization_amended (s : VisualState) (d : NDArray) (ax : Option Int)
    (c : Option ColorSpec) (rng : Nat → ℚ × ℚ × ℚ) (s' : VisualState) (row : List ℚ)
    (h : set_data s (some d) ax c rng = .ok s') (hrow : row ∈ s'.dbuffer)
    (hnc : ∃ x ∈ row, ∃ y ∈ row, x ≠ y) :
    listMean row = 0 ∧ maxAbs row = 1 := by
  obtain ⟨d3, hr, h1, h2, hs'⟩ := set_data_ok_inv _ _ _ _ _ _ h
  obtain ⟨hdbuf, _⟩ := applyColor_geom
    (buildState { s with _ori_shape := d3.shape.take 2 } d3
      (ndsubplot ((d3.shape.take 2).prod)).1 (ndsubplot ((d3.shape.take 2).prod)).2) c rng
  have hdb : s'.dbuffer =
      (fortranRows d3.flat (ndsubplot ((d3.shape.take 2).prod)).1
        (ndsubplot ((d3.shape.take 2).prod)).2 s._n).map demeanNorm := by
    rw [hs', hdbuf]
    rfl
  rw [hdb] at hrow
  rcases List.mem_map.mp hrow with ⟨r0, _, hdm⟩
  subst hdm
  obtain ⟨x, hx, y, hy, hxy⟩ := hnc
  by_cases hM : maxAbs (r0.map (fun t => t - listMean r0)) = 0
  · exfalso
    have hx0 := demeanNorm_zero_of_maxAbs_zero r0 hM x hx
    have hy0 := demeanNorm_zero_of_maxAbs_zero r0 hM y hy
    exact hxy (hx0.trans hy0.symm)
  · have hnil : r0 ≠ [] := demeanNorm_ne_nil r0 (List.ne_nil_of_mem hx)
    exact ⟨demeanNorm_mean r0 hnil, demeanNorm_maxAbs r0 hM⟩

/-- Counterexample for C2 as stated: loading the constant 1-D dataset
[5, 5, 5] produces the uploaded channel [0, 0, 0] (demeaned to zero,
then divided by a zero maximum: NaN in floating point, 0 in exact
arithmetic), whose max-abs is 0, not 1. -/
theorem C2_counterexample :
    sConst.dbuffer = [[0, 0, 0]] ∧ maxAbs [(0 : ℚ), 0, 0] ≠ 1 := by
  constructor
  · have h1 : sConst.dbuffer = [demeanNorm [5, 5, 5]] := rfl
    rw [h1]
    norm_num [demeanNorm, listMean, maxAbs]
  · norm_num [maxAbs]

/-- Witness for C2: the non-constant two-sample ramp [0, 2], once
loaded, is normalized to a channel with mean 0 and max-abs 1. -/
theorem C2_witness :
    listMean (demeanNorm [(0 : ℚ), 2]) = 0 ∧ maxAbs (demeanNorm [(0 : ℚ), 2]) = 1 := by
  have hval : demeanNorm [(0 : ℚ), 2] = [-1, 1] := by
    norm_num [demeanNorm, listMean, maxAbs]
  exact C2_normalization_amended sRamp dRamp none none rng0 sW (demeanNorm [(0 : ℚ), 2])
    rfl (by exact List.mem_singleton.mpr rfl)
    (by rw [hval]; exact ⟨-1, by simp, 1, by simp, by norm_num⟩)

theorem convert_on_flip (s' : VisualState) (R C orr oc q : Nat)
    (hsig : s'._sig_index = (sigGrid R C).reverse)
    (hor : s'._ori_shape = [orr, oc])
    (hprod : R * C = orr * oc)
    (hq : q < R * C) (hC : 0 < C) (_hoc : 0 < oc) :
    _convert_row_cols s' ((q / C : Nat) : Int) ((q % C : Nat) : Int)
      = (((q / oc : Nat) : Int), ((q % oc : Nat) : Int)) := by
  have hR : 0 < R := by
    rcases Nat.eq_zero_or_pos R with rfl | h
    · omega
    · exact h
  have hdiv : q / C < R := (Nat.div_lt_iff_lt_mul hC).mpr hq
  have hmod : q % C < C := Nat.mod_lt _ hC
  unfold _convert_row_cols
  rw [hsig, hor]
  simp only []
  have hglen : (sigGrid R C).reverse.length = R := by simp [sigGrid]
  rw [hglen]
  rw [sigGrid_reverse_getD R C 0 hR]
  rw [List.length_map, List.length_range]
  have hcond : (-(R : Int) ≤ ((q / C : Nat) : Int) ∧ ((q / C : Nat) : Int) < (R : Int) ∧
      -(C : Int) ≤ ((q % C : Nat) : Int) ∧ ((q % C : Nat) : Int) < (C : Int)) := by
    refine ⟨?_, ?_, ?_, ?_⟩
    · exact le_trans (by omega) (Int.natCast_nonneg _)
    · exact_mod_cast hdiv
    · exact le_trans (by omega) (Int.natCast_nonneg _)
    · exact_mod_cast hmod
  rw [if_pos hcond]
  rw [if_pos (Int.natCast_nonneg (q / C)), if_pos (Int.natCast_nonneg (q % C))]
  rw [Int.toNat_natCast, Int.toNat_natCast]
  rw [sigGrid_reverse_getD R C (q / C) hdiv]
  rw [row_getD C ((R - 1 - q / C) * C) (q % C) hmod]
  rw [sigGrid_reverse_flatten_length]
  rw [if_pos hprod.symm]
  rw [npWhereFirst_flip R C (q / C) (q % C) hdiv hmod]
  simp only []
  have hdm : q / C * C + q % C = q := by
    rw [Nat.mul_comm]
    exact Nat.div_add_mod q C
  rw [hdm]

/-- C1 (amended): for every dataset loaded via set_data and every
original multi-index (a, b) within the pre-padding original shape
(orr, oc), _convert_row_cols applied to the NATURAL-ORDER (unflipped)
grid cell of channel q = a * oc + b -- the cell whose uploaded data is
channel q, namely (q / C, q mod C) -- returns exactly (a, b).  The
lookup cancels, rather than inverts, the recorded vertical flip: the
np.where over the same flipped array undoes the flip, so the round trip
holds for natural-order cells, while the cell recorded for q in the
flipped _sig_index maps elsewhere (see the counterexample). -/
theorem C1_lookup_roundtrip_amended (s : VisualState) (d : NDArray) (ax : Option Int)
    (c : Option ColorSpec) (rng : Nat → ℚ × ℚ × ℚ) (s' : VisualState)
    (R C orr oc a b : Nat)
    (h : set_data s (some d) ax c rng = .ok s')
    (hop : s'._opt_shape = [R, C]) (hor : s'._ori_shape = [orr, oc])
    (ha : a < orr) (hb : b < oc) :
    _convert_row_cols s' (((a * oc + b) / C : Nat) : Int) (((a * oc + b) % C : Nat) : Int)
      = ((a : Int), (b : Int)) := by
  obtain ⟨hsig, hprod0⟩ := set_data_ok_shape _ _ _ _ _ _ _ _ h hop
  rw [hor] at hprod0
  have hprod : R * C = orr * oc := by simpa using hprod0
  have hoc : 0 < oc := by omega
  have hq : a * oc + b < R * C := by
    rw [hprod]
    have hstep : a * oc + b < (a + 1) * oc := by rw [Nat.succ_mul]; omega
    have hle : (a + 1) * oc ≤ orr * oc := Nat.mul_le_mul_right oc (by omega)
    omega
  have hC : 0 < C := by
    rcases Nat.eq_zero_or_pos C with rfl | h0
    · omega
    · exact h0
  have hres := convert_on_flip s' R C orr oc (a * oc + b) hsig hor hprod hq hC hoc
  rw [hres]
  have hdiv2 : (a * oc + b) / oc = a := by
    rw [Nat.mul_comm a oc, Nat.mul_add_div hoc, Nat.div_eq_of_lt hb]
    omega
  have hmod2 : (a * oc + b) % oc = b := by
    rw [Nat.mul_comm a oc, Nat.mul_add_mod]
    exact Nat.mod_eq_of_lt hb
  rw [hdiv2, hmod2]

/-- Counterexample for C1 as stated: in the loaded 2 x 2 visual s0 the
permutation grid records channel 0 (original multi-index (0, 0) of the
shape [1, 4]) at grid cell (1, 0), but _convert_row_cols at that cell
returns (0, 2), not (0, 0): the recorded flipped permutation and the
lookup do not invert each other. -/
theorem C1_counterexample :
    (s0._sig_index.getD 1 []).getD 0 7 = 0 ∧
    _convert_row_cols s0 1 0 = (0, 2) ∧
    s0._ori_shape = [1, 4] := by
  exact ⟨by decide, by decide, by decide⟩

/-- Witness for C1: in the reloaded 2 x 2 visual s0b, the natural-order
cell of channel 1 (multi-index (0, 1) of shape [1, 4]) maps back to
(0, 1). -/
theorem C1_witness :
    _convert_row_cols s0b (((0 * 4 + 1) / 2 : Nat) : Int) (((0 * 4 + 1) % 2 : Nat) : Int)
      = (((0 : Nat) : Int), ((1 : Nat) : Int)) :=
  C1_lookup_roundtrip_amended s0 dGrid none none rng0 s0b 2 2 1 4 0 1 rfl rfl rfl
    (by decide) (by decide)
